import Mathlib

/-!
Verification development for the `pyangular` backend service.

Shallow embedding of the parts of `src/backend` that the checked properties
are about: the `/graphql` request handler (`server.py`), the role gate and
the `profileUpdate` mutation (`graph.py`), the datastore access layer
(`datastore.py`: `GcdConnector.run_query`, `GcdModel.filter`/`get_by_key`,
`EntityValue`, `DatetimeValue`) and the certificate cache of
`googleauth.py` (`_fetch_certs`).

Machine integers are modelled as `Int`/`Nat`; Python exceptions as
`Except`; the remote datastore as an explicit list of records threaded
through the definitions; wall-clock time as an `Int` count of seconds.
-/

namespace PyAngular

/-- A Python runtime value, as far as the embedded code needs one:
strings, integers and booleans. -/
inductive PyVal where
  | s (v : String)
  | i (v : Int)
  | b (v : Bool)
  deriving DecidableEq, Repr

/-- Python `str(...)`/f-string formatting of a `PyVal`. -/
def PyVal.fmt : PyVal → String
  | .s v => v
  | .i v => toString v
  | .b v => if v then "True" else "False"

/-! ### googleauth.py: `TokenInfo` (lines 130-143) -/

/-- Embeds `googleauth.TokenInfo` - the `NamedTuple` produced by
`verify_oauth2_token_simple` (googleauth.py:130). Field order matters:
as a Python tuple it has exactly these eight components in this order. -/
structure TokenInfo where
  uid : String
  email : String
  expiry : Int
  email_verified : Bool
  scope : String
  aud : String
  azp : String
  offline : Bool
  deriving DecidableEq, Repr

/-- A `TokenInfo` viewed as the Python tuple it is: the eight fields in
declaration order (a `NamedTuple` iterates as a plain tuple). -/
def TokenInfo.toTuple (t : TokenInfo) : List PyVal :=
  [.s t.uid, .s t.email, .i t.expiry, .b t.email_verified,
   .s t.scope, .s t.aud, .s t.azp, .b t.offline]

/-- Python tuple unpacking `a, b = xs` into exactly two targets:
succeeds only on a two-element tuple, otherwise raises `ValueError`
with CPython's message. -/
def unpack2 (xs : List PyVal) : Except String (PyVal × PyVal) :=
  match xs with
  | [a, b] => .ok (a, b)
  | _ :: _ :: _ :: _ => .error "too many values to unpack (expected 2)"
  | _ => .error "not enough values to unpack (expected 2)"

/-! ### datastore.py: `Roles` (lines 572-579) and `DemoUser` (lines 582-621) -/

/-- Embeds `datastore.Roles` - the enumeration of access levels. -/
inductive Roles where
  | ADMIN
  | REGISTERED
  | UNREGISTERED
  | SIGNED_OUT
  deriving DecidableEq, Repr

/-- The integer value of each role (`IntEnum` values, datastore.py:576-579). -/
def Roles.val : Roles → Int
  | .ADMIN => 10
  | .REGISTERED => 5
  | .UNREGISTERED => 1
  | .SIGNED_OUT => 0

/-- Embeds `datastore.DemoUser` - the user profile entity. `name`,
`refresh_token` are `Optional`; `email` is declared required but the
handler's provisioning path never assigns it, so the model keeps it
optional to be able to represent entities the code actually builds. -/
structure DemoUser where
  name : Option String
  email : Option String
  gid : String
  token : String
  refresh_token : Option String
  role : Int
  deriving DecidableEq, Repr

/-- Embeds `User.filter(User.gid == gid).get_entity()` - the single-entity fetch
for a property-equality query on `gid`: first stored entity whose `gid`
matches, or `None`. -/
def dbFind (db : List DemoUser) (gid : String) : Option DemoUser :=
  db.find? (fun u => u.gid == gid)

/-- Upsert of an entity identified by `gid` (the effect of
`user_entity.put()` on an entity that is already stored). -/
def dbReplace (db : List DemoUser) (gid : String) (u' : DemoUser) : List DemoUser :=
  db.map (fun u => if u.gid == gid then u' else u)

/-! ### server.py: the `/graphql` handler (lines 101-179) -/

/-- Helper for Python `s.split(':', 1)` on the character list: splits at
the first `':'` only; `none` when no colon occurs. -/
def splitColonAux : List Char → Option (List Char × List Char)
  | [] => none
  | c :: cs =>
    if c = ':' then some ([], cs)
    else (splitColonAux cs).map (fun p => (c :: p.1, p.2))

/-- Python expression `header.split(':', 1)` unpacked into `gid, access_token`
(server.py:110): `none` models the `ValueError` of a colon-free header. -/
def pySplitColon1 (s : String) : Option (String × String) :=
  (splitColonAux s.data).map (fun p => (String.mk p.1, String.mk p.2))

/-- Outcome of the authentication part of `graphql_handler`
(server.py:101-147): an early HTTP 403 response, the continuation into
GraphQL execution with the resolved caller data, or an uncaught Python
exception. -/
inductive HandlerResult where
  | resp403 (text : String)
  | proceed (callerGid : String) (accessToken : String) (entity : DemoUser)
  | pyError (msg : String)
  deriving DecidableEq, Repr

/-- The body of `graphql_handler` after a successful header split
(server.py:117-147). `introspect` models
`verify_oauth2_token_simple(access_token, ...)`: `Except.error m` is a
raised `ValueError(m)`. The user-entity lookup and the introspection run
in one `asyncio.gather`; the lookup's result is only consumed after the
token checks. The assignment
`user_entity, (token_uid, token_email) = await asyncio.gather(...)`
destructures the returned `TokenInfo` into two names, which is the
modelled `unpack2` of its eight-element tuple; the `ValueError` it
raises is caught by the same `except ValueError` clause as introspection
failures (server.py:127-131). Returns the handler outcome together with
the datastore contents after the request. -/
def handlerAuthed (gid accessToken : String) (db : List DemoUser)
    (introspect : String → Except String TokenInfo) :
    HandlerResult × List DemoUser :=
  match (introspect accessToken).bind (fun info => unpack2 info.toTuple) with
  | .error m =>
    (.resp403 ("Token could not be verified: \"" ++ m ++ "\""), db)
  | .ok (token_uid, _token_email) =>
    if PyVal.s gid ≠ token_uid then
      (.resp403 "Token was not issued for the calling user", db)
    else
      match dbFind db gid with
      | none =>
        -- server.py:141: User(gid=gid, token=access_token, role=Roles.UNREGISTERED)
        let u : DemoUser :=
          { name := none, email := none, gid := gid, token := accessToken,
            refresh_token := none, role := Roles.UNREGISTERED.val }
        (.proceed gid accessToken u, db ++ [u])
      | some u =>
        if u.token ≠ accessToken then
          let u' := { u with token := accessToken }
          (.proceed gid accessToken u', dbReplace db gid u')
        else
          (.proceed gid accessToken u, db)

/-- Embeds `server.graphql_handler` (server.py:101-150), up to the point where
the GraphQL engine is invoked. A missing `authorization` header raises
`AttributeError`, which the handler catches but immediately re-raises
(the bare `raise` on server.py:149), so the anonymous fallback is
unreachable; a header without a colon raises `ValueError` in the split
and is answered with HTTP 403 `Malformed auth: <header>`
(server.py:112-115). -/
def graphql_handler (header : Option String) (db : List DemoUser)
    (introspect : String → Except String TokenInfo) :
    HandlerResult × List DemoUser :=
  match header with
  | none => (.pyError "AttributeError", db)
  | some h =>
    match pySplitColon1 h with
    | none => (.resp403 ("Malformed auth: " ++ h), db)
    | some (gid, accessToken) => handlerAuthed gid accessToken db introspect

/-- A concrete introspection stub: token `"tok1"` verifies with subject
id `"g1"` and email `"g1@example.com"`; everything else fails. -/
def introspectG1 : String → Except String TokenInfo := fun t =>
  if t = "tok1" then
    .ok { uid := "g1", email := "g1@example.com", expiry := 4070908800,
          email_verified := true, scope := "email profile",
          aud := "webapp-client-id", azp := "webapp-client-id",
          offline := false }
  else .error "Invalid Value"

/-- A concrete introspection stub whose subject id `"g2"` differs from
the header gid used in the C2 failing input. -/
def introspectG2 : String → Except String TokenInfo := fun t =>
  if t = "tok1" then
    .ok { uid := "g2", email := "g2@example.com", expiry := 4070908800,
          email_verified := true, scope := "email profile",
          aud := "webapp-client-id", azp := "webapp-client-id",
          offline := false }
  else .error "Invalid Value"

/-- An introspection stub that always fails verification. -/
def introspectFail : String → Except String TokenInfo :=
  fun _ => .error "Invalid Value"

/-! ### graph.py: role gate (lines 40-54), `Caller` (57-64), `ProfileUpdate` (141-197) -/

/-- Embeds `graph.Caller` without its `aiohttp` session (a network object
with no bearing on the checked properties). -/
structure Caller where
  gid : String
  entity : DemoUser
  deriving DecidableEq, Repr

/-- The GraphQL execution context as the resolvers see it:
`context['caller']`. -/
structure GqlCtx where
  caller : Caller
  deriving DecidableEq, Repr

/-- Exceptions raised inside resolvers: `InsufficientPrivilegesException`
(with its constructor arguments), `InvalidMutationValue`, and any other
exception (carrying its message). -/
inductive GError where
  | insufficientPrivileges (args : List PyVal)
  | invalidMutationValue (msg : String)
  | generic (msg : String)
  deriving DecidableEq, Repr

/-- Embeds `graph.require_role` (graph.py:40-54): the produced wrapper
raises `InsufficientPrivilegesException(role, caller.entity.role)` when
`caller.entity.role < role`, and otherwise calls the wrapped resolver. -/
def require_role {α : Type} (role : Roles) (resolver : GqlCtx → α)
    (context : GqlCtx) : Except GError α :=
  if context.caller.entity.role < role.val then
    .error (.insufficientPrivileges [.i role.val, .i context.caller.entity.role])
  else
    .ok (resolver context)

/-- Python `getattr(user, field)` for the fields reachable from
`ProfileUpdate.mutate`; an unset optional property reads as `None`. -/
def pyGetattr (u : DemoUser) : String → Option PyVal
  | "gid" => some (.s u.gid)
  | "email" => u.email.map .s
  | "name" => u.name.map .s
  | "role" => some (.i u.role)
  | "token" => some (.s u.token)
  | "refresh_token" => u.refresh_token.map .s
  | _ => none

/-- Python `setattr(user, field, new_value)` for the same fields. -/
def pySetattr (u : DemoUser) (field : String) (v : PyVal) : DemoUser :=
  if field = "gid" then match v with | .s x => { u with gid := x } | _ => u
  else if field = "email" then match v with | .s x => { u with email := some x } | _ => u
  else if field = "name" then match v with | .s x => { u with name := some x } | _ => u
  else if field = "role" then match v with | .i n => { u with role := n } | _ => u
  else u

/-- The invalid-mutation-value message of the email ownership rule
(graph.py:176-177). -/
def emailErrorMsg (v : PyVal) : String :=
  "Cannot set new email to " ++ v.fmt ++
    " since it is not registered to users google account."

/-- The per-field validation of `ProfileUpdate.mutate`'s loop body
(graph.py:170-187), evaluated only when the supplied value differs from
the stored one: `email` must pass `user_has_email` (modelled by the
`hasEmail` oracle, since it calls the Google identity endpoint); `id`
may never change; `role` changes require `ADMIN`. -/
def fieldCheck (hasEmail : DemoUser → PyVal → Bool) (callerRole : Int)
    (user : DemoUser) (field : String) (newValue : PyVal) : Except GError Unit :=
  if field = "email" then
    if hasEmail user newValue then .ok ()
    else .error (.invalidMutationValue (emailErrorMsg newValue))
  else if field = "id" then
    .error (.invalidMutationValue "Cannot change the google ID of a user profile.")
  else if field = "role" then
    if callerRole < Roles.ADMIN.val then
      .error (.insufficientPrivileges [.s "Only admin can change user roles"])
    else .ok ()
  else .ok ()

/-- The `for field, new_value in args.items()` loop of
`ProfileUpdate.mutate` (graph.py:169-190): skips fields whose supplied
value equals the stored one, validates the rest, applies them with
`setattr` and records that a change occurred. -/
def applyFields (hasEmail : DemoUser → PyVal → Bool) (callerRole : Int) :
    DemoUser → Bool → List (String × PyVal) → Except GError (DemoUser × Bool)
  | user, changes, [] => .ok (user, changes)
  | user, changes, (field, newValue) :: rest =>
    if pyGetattr user field = some newValue then
      applyFields hasEmail callerRole user changes rest
    else
      match fieldCheck hasEmail callerRole user field newValue with
      | .error e => .error e
      | .ok _ => applyFields hasEmail callerRole (pySetattr user field newValue) true rest

/-- Python `args['gid']` - the required `gid` argument of the mutation.
GraphQL argument dictionaries have unique keys; `args` is modelled as the
association list of the arguments the client actually supplied. -/
def argsGid (args : List (String × PyVal)) : Option String :=
  match args.find? (fun p => p.1 == "gid") with
  | some (_, .s g) => some g
  | _ => none

/-- Embeds `graph.ProfileUpdate.mutate` (graph.py:154-197), including its
`@require_role(Roles.UNREGISTERED)` wrapper: looks up the target user by
the supplied `gid`, requires the caller to be the target or an admin,
runs the field loop, and persists (upserts) the mutated user only if
some field changed. Returns the datastore after the call, the resulting
user and the `ok` flag. -/
def ProfileUpdate_mutate (db : List DemoUser) (caller : Caller)
    (args : List (String × PyVal)) (hasEmail : DemoUser → PyVal → Bool) :
    Except GError (List DemoUser × DemoUser × Bool) :=
  if caller.entity.role < Roles.UNREGISTERED.val then
    .error (.insufficientPrivileges [.i Roles.UNREGISTERED.val, .i caller.entity.role])
  else
    match argsGid args with
    | none => .error (.generic "KeyError: gid")
    | some gid =>
      match dbFind db gid with
      | none => .error (.generic ("No user found with gid " ++ gid))
      | some user =>
        if caller.gid ≠ user.gid ∧ caller.entity.role < Roles.ADMIN.val then
          .error (.insufficientPrivileges [.s "Only admin can update other peoples profiles"])
        else
          match applyFields hasEmail caller.entity.role user false args with
          | .error e => .error e
          | .ok (user', changes) =>
            .ok (if changes then dbReplace db gid user' else db, user', true)

/-! ### datastore.py: `GcdModel.filter` / `get_by_key` (lines 532-551) -/

/-- A stored datastore entity, reduced to what key/property queries
inspect: its kind, numeric key id and property values. -/
structure DsEntity where
  kind : String
  key : Nat
  props : List (String × String)
  deriving DecidableEq, Repr

/-- An aiogcd query object (`aiogcd.orm.filter.Filter`): the kind it is
scoped to, its property equality filters and its optional key
constraint. -/
structure GcdFilter where
  kind : String
  propFilters : List (String × String)
  keyFilter : Option Nat
  deriving DecidableEq, Repr

/-- Whether an entity satisfies a query: kind match, every property
filter satisfied, and the key constraint when one is present. -/
def GcdFilter.matches (f : GcdFilter) (e : DsEntity) : Bool :=
  e.kind == f.kind
    && f.propFilters.all (fun pf => e.props.contains pf)
    && (match f.keyFilter with
        | none => true
        | some k => e.key == k)

/-- Semantics of `Filter.get_entity(connector)` from the aiogcd library:
the first stored entity matching the query, or `None`. -/
def GcdFilter.get_entity (f : GcdFilter) (db : List DsEntity) : Option DsEntity :=
  db.find? f.matches

/-- Semantics of the aiogcd library's own `GcdModel.filter` classmethod:
builds the query with the filters, and the key constraint it was given. -/
def aiogcdFilter (kind : String) (filters : List (String × String))
    (key : Option Nat) : GcdFilter :=
  { kind := kind, propFilters := filters, keyFilter := key }

/-- Embeds the repository's `GcdModel.filter` override (datastore.py:
532-542): it wraps the superclass call in a `PopulatedFilter` carrying
the shared connector, forwarding the property filters and `has_ancestor`
- but it passes `key=None` to the superclass regardless of the `key`
argument it received (`super().filter(*filters, has_ancestor=has_ancestor,
key=None)` on line 542). -/
def GcdModel.filter (kind : String) (filters : List (String × String))
    (key : Option Nat) : GcdFilter :=
  aiogcdFilter kind filters none

/-- Embeds `GcdModel.get_by_key` (datastore.py:544-551):
`cls.filter(key=key).get_entity()`. -/
def GcdModel.get_by_key (kind : String) (db : List DsEntity) (key : Nat) :
    Option DsEntity :=
  (GcdModel.filter kind [] (some key)).get_entity db

/-- A query built the way the spec describes `get_by_key`: constrained
to exactly the requested key. Stated for comparison with the code's
behaviour; follows the spec sentence, not the source. -/
def get_by_key_specified (kind : String) (db : List DsEntity) (key : Nat) :
    Option DsEntity :=
  (aiogcdFilter kind [] (some key)).get_entity db

/-- Two `DemoUser`-kind entities with distinct keys, the failing input
for the `get_by_key` check. -/
def dsEntity5 : DsEntity := { kind := "DemoUser", key := 5, props := [] }

/-- The entity `get_by_key 7` is asked for. -/
def dsEntity7 : DsEntity := { kind := "DemoUser", key := 7, props := [] }

/-! ### datastore.py: `GcdConnector.run_query` (lines 256-307) -/

/-- One scripted HTTP response to a `runQuery` POST: its status, the
optional `error` field of the body, and the `batch` contents
(`entityResults` as abstract result ids, `moreResults`, `endCursor`). -/
structure QPage where
  status : Nat
  errorField : Option String
  entityResults : List Nat
  moreResults : String
  endCursor : String
  deriving DecidableEq, Repr

/-- How a `run_query` stream ends: normal termination, a raised
`ValueError`, or still awaiting a response when the script ran out. -/
inductive QOutcome where
  | done
  | error (msg : String)
  | pending
  deriving DecidableEq, Repr

/-- Observable behaviour of one `run_query` invocation: the
`startCursor` carried by each issued HTTP call (`none` for an absent
cursor), the entity results yielded, in order, and how the stream
ended. -/
structure QRun where
  requests : List (Option String)
  yielded : List Nat
  outcome : QOutcome
  deriving DecidableEq, Repr

/-- Embeds `GcdConnector.run_query` (datastore.py:256-307) against a
scripted sequence of responses, one per loop iteration: a 200 page
yields its `entityResults`, then terminates on `NO_MORE_RESULTS`,
`MORE_RESULTS_AFTER_LIMIT` or `MORE_RESULTS_AFTER_CURSOR`, continues
with `startCursor := endCursor` on `NOT_FINISHED`, and raises on any
other `moreResults` value; a non-200 response raises with the upstream
error payload and status. -/
def run_query : List QPage → Option String → QRun
  | [], startCursor => { requests := [startCursor], yielded := [], outcome := .pending }
  | page :: rest, startCursor =>
    if page.status = 200 then
      if page.moreResults = "NO_MORE_RESULTS" ∨ page.moreResults = "MORE_RESULTS_AFTER_LIMIT"
          ∨ page.moreResults = "MORE_RESULTS_AFTER_CURSOR" then
        { requests := [startCursor], yielded := page.entityResults, outcome := .done }
      else if page.moreResults = "NOT_FINISHED" then
        let r := run_query rest (some page.endCursor)
        { requests := startCursor :: r.requests,
          yielded := page.entityResults ++ r.yielded,
          outcome := r.outcome }
      else
        { requests := [startCursor], yielded := page.entityResults,
          outcome := .error ("Unexpected value for \"moreResults\": " ++ page.moreResults) }
    else
      { requests := [startCursor], yielded := [],
        outcome := .error ("Error while query the datastore: "
          ++ page.errorField.getD "unknown" ++ " (" ++ toString page.status ++ ")") }

/-- First page of the scripted `NOT_FINISHED → NOT_FINISHED →
NO_MORE_RESULTS` sequence from the pagination check. -/
def qPage1 : QPage :=
  { status := 200, errorField := none, entityResults := [1, 2],
    moreResults := "NOT_FINISHED", endCursor := "cur1" }

/-- Second page of the scripted sequence. -/
def qPage2 : QPage :=
  { status := 200, errorField := none, entityResults := [3],
    moreResults := "NOT_FINISHED", endCursor := "cur2" }

/-- Terminal page of the scripted sequence. -/
def qPage3 : QPage :=
  { status := 200, errorField := none, entityResults := [4, 5],
    moreResults := "NO_MORE_RESULTS", endCursor := "cur3" }

/-- A page carrying a `moreResults` value outside the protocol. -/
def qPageBad : QPage :=
  { status := 200, errorField := none, entityResults := [9],
    moreResults := "BOGUS_MARKER", endCursor := "cur9" }

/-! ### googleauth.py: `_fetch_certs` and its cache (lines 46-86) -/

/-- An abstract certificate mapping, as returned by a certs endpoint. -/
abbrev Certs := String

/-- The process-wide `CERTS_CACHE`: url → (certs, expiry). Python dicts
have unique keys; modelled as an association list. Time is an `Int`
count of seconds (`CERTS_CACHE_TTL = timedelta(seconds=300)`). -/
abbrev CertsCache := List (String × Certs × Int)

/-- Dictionary lookup `CERTS_CACHE[certs_url]` (raising `KeyError`
modelled as `none`). -/
def cacheLookup : CertsCache → String → Option (Certs × Int)
  | [], _ => none
  | (u, c, e) :: rest, url => if u = url then some (c, e) else cacheLookup rest url

/-- Dictionary deletion `del CERTS_CACHE[certs_url]`. -/
def cacheErase : CertsCache → String → CertsCache
  | [], _ => []
  | (u, c, e) :: rest, url =>
    if u = url then cacheErase rest url else (u, c, e) :: cacheErase rest url

/-- Dictionary store `CERTS_CACHE[certs_url] = value`. -/
def cacheStore (cache : CertsCache) (url : String) (v : Certs × Int) : CertsCache :=
  match cache with
  | [] => [(url, v.1, v.2)]
  | (u, c, e) :: rest =>
    if u = url then (url, v.1, v.2) :: rest
    else (u, c, e) :: cacheStore rest url v

instance {ε α : Type} [DecidableEq ε] [DecidableEq α] : DecidableEq (Except ε α) := fun x y =>
  match x, y with
  | .ok a, .ok b => if h : a = b then isTrue (by rw [h]) else isFalse (by simp [h])
  | .error a, .error b => if h : a = b then isTrue (by rw [h]) else isFalse (by simp [h])
  | .ok _, .error _ => isFalse (by simp)
  | .error _, .ok _ => isFalse (by simp)

/-- Observable behaviour of one `_fetch_certs` call: the returned certs
or the raised `TransportError`, the cache afterwards, and whether an
upstream HTTP GET was performed. -/
structure FetchOutcome where
  result : Except String Certs
  cache : CertsCache
  httpCalled : Bool
  deriving DecidableEq, Repr

/-- The `session.get(certs_url)` block of `_fetch_certs`
(googleauth.py:77-86): one HTTP GET; non-200 raises
`TransportError('Could not fetch certificates at <url>')`, otherwise the
body is cached with expiry `now + 300s` and returned. `respStatus` and
`respBody` script the upstream response. -/
def certsHttpGet (cache : CertsCache) (now : Int) (url : String)
    (respStatus : Nat) (respBody : Certs) : FetchOutcome :=
  if respStatus ≠ 200 then
    { result := .error ("Could not fetch certificates at " ++ url),
      cache := cache, httpCalled := true }
  else
    { result := .ok respBody,
      cache := cacheStore cache url (respBody, now + 300),
      httpCalled := true }

/-- Embeds `googleauth._fetch_certs` (googleauth.py:50-86): a cached,
unexpired entry is returned with no network call; an expired entry is
deleted and refetched; a missing entry is fetched. Both `datetime.now()`
calls of one invocation are modelled as the same instant `now`. -/
def fetch_certs (cache : CertsCache) (now : Int) (url : String)
    (respStatus : Nat) (respBody : Certs) : FetchOutcome :=
  match cacheLookup cache url with
  | some (certs, expiry) =>
    if now > expiry then certsHttpGet (cacheErase cache url) now url respStatus respBody
    else { result := .ok certs, cache := cache, httpCalled := false }
  | none => certsHttpGet cache now url respStatus respBody

/-! ### datastore.py: `EntityValue` (lines 98-144) -/

/-- A referenced entity, reduced to its key and an identity payload so
that "the same object" is expressible. -/
structure RefEntity where
  key : Nat
  payload : String
  deriving DecidableEq, Repr

/-- The per-descriptor `entity_cache : Dict[Key, GcdModel]`. The cached
value is itself optional because the cold-read path stores whatever the
fetch returned, which may be `None`. -/
abbrev EntityCache := List (Nat × Option RefEntity)

/-- Cache dictionary lookup (a `KeyError` is `none`). -/
def evLookup : EntityCache → Nat → Option (Option RefEntity)
  | [], _ => none
  | (k, v) :: rest, key => if k = key then some v else evLookup rest key

/-- Cache dictionary store. -/
def evStore (cache : EntityCache) (key : Nat) (v : Option RefEntity) : EntityCache :=
  match cache with
  | [] => [(key, v)]
  | (k, w) :: rest =>
    if k = key then (key, v) :: rest
    else (k, w) :: evStore rest key v

/-- Embeds `EntityValue.set_value` (datastore.py:108-121) for a live
entity argument: stores `value.key` as the persisted slot value and
caches the object under its key. Returns (stored key, cache after). -/
def EntityValue_set_value (cache : EntityCache) (value : RefEntity) :
    Nat × EntityCache :=
  (value.key, evStore cache value.key (some value))

/-- Embeds `EntityValue.get_value` (datastore.py:123-141) as the value
obtained by awaiting the returned `fetch()` coroutine, together with the
cache afterwards. On a cache hit the inner `fetch` returns the cached
value; on a miss it runs `value = await self.entity_type.get_by_key(key)`
(modelled by the `getByKey` oracle) and caches the result - but has no
`return` statement, so awaiting it produces `None`. -/
def EntityValue_get_value (cache : EntityCache) (storedKey : Nat)
    (getByKey : Nat → Option RefEntity) : Option RefEntity × EntityCache :=
  match evLookup cache storedKey with
  | some v => (v, cache)
  | none => (none, evStore cache storedKey (getByKey storedKey))

/-- The referenced entity used as the `EntityValue` failing input. -/
def refEntity7 : RefEntity := { key := 7, payload := "user7" }

/-- A datastore oracle holding exactly `refEntity7`. -/
def getByKey7 : Nat → Option RefEntity := fun k =>
  if k = 7 then some refEntity7 else none

/-! ### datastore.py: `DatetimeValue` (lines 47-60) -/

/-- A timezone-aware Python datetime, reduced to the absolute instant it
denotes (seconds since epoch) and its tzinfo's UTC offset in minutes.
The naive-datetime branch of `set_value` (`utcoffset() is None`) is not
exercised by the checked property, which quantifies over aware values. -/
structure AwareDt where
  instant : Int
  offsetMin : Int
  deriving DecidableEq, Repr

/-- Python `value.utcoffset().seconds // 60` (datastore.py:53):
`timedelta` normalization keeps `0 ≤ seconds < 86400`, so the extracted
offset is `(offsetMin * 60) mod 86400` seconds, floor-divided by 60. -/
def pyUtcoffsetMin (offsetMin : Int) : Int := ((offsetMin * 60) % 86400) / 60

/-- Python `value.astimezone(TZFixedOffset(o))` on an aware value: the
same instant expressed at offset `o`. -/
def astimezoneFixed (v : AwareDt) (o : Int) : AwareDt :=
  { instant := v.instant, offsetMin := o }

/-- Python `+ datetime.timedelta(hours=2)` on an aware value: wall-clock
addition at a fixed offset shifts the instant by 7200 seconds. -/
def addTwoHours (v : AwareDt) : AwareDt :=
  { instant := v.instant + 7200, offsetMin := v.offsetMin }

/-- Embeds `DatetimeValue.set_value` (datastore.py:48-56) on an aware or
absent value: an aware value is re-expressed at the offset Python
extracts from it, shifted by two hours and serialized with
`udatetime.to_string`; the stored string is modelled by the
`(instant, offset)` pair it denotes, which `udatetime.from_string`
recovers faithfully. Absent values are passed to the superclass
unchanged. -/
def DatetimeValue_set_value : Option AwareDt → Option AwareDt
  | some v => some (addTwoHours (astimezoneFixed v (pyUtcoffsetMin v.offsetMin)))
  | none => none

/-- Embeds `DatetimeValue.get_value` (datastore.py:58-60):
`udatetime.from_string` of the stored serialization, `None` when
absent. -/
def DatetimeValue_get_value (stored : Option AwareDt) : Option AwareDt :=
  stored

/-! ### Concrete fixtures for counterexamples and witnesses -/

/-- An admin user, `gid = "a"`. -/
def adminA : DemoUser :=
  { name := some "alice", email := some "a@example.com", gid := "a",
    token := "ta", refresh_token := none, role := 10 }

/-- An unregistered-level user, `gid = "b"`. -/
def userB : DemoUser :=
  { name := some "bob", email := some "b@example.com", gid := "b",
    token := "tb", refresh_token := none, role := 1 }

/-- The admin calling `profileUpdate`. -/
def callerA : Caller := { gid := "a", entity := adminA }

/-- Mutation arguments supplying another existing user's gid together
with a changed name. -/
def c4Args : List (String × PyVal) := [("gid", .s "b"), ("name", .s "robert")]

/-- An email oracle that accepts everything (the email rule is not what
these inputs exercise). -/
def alwaysHasEmail : DemoUser → PyVal → Bool := fun _ _ => true

/-- A registered-level user for the role-gate witness. -/
def userReg : DemoUser :=
  { name := some "reg", email := some "r@example.com", gid := "r",
    token := "tr", refresh_token := none, role := 5 }

/-- A context whose caller holds `REGISTERED`. -/
def ctxReg : GqlCtx := { caller := { gid := "r", entity := userReg } }

/-! Generic facts about the handler, shared by several checks. -/

/-- Whenever introspection succeeds, the destructuring of the eight-field
`TokenInfo` into `(token_uid, token_email)` raises `ValueError`, so the
handler answers HTTP 403 with the verification-failure message and the
datastore is left untouched: the subject-id check, the provisioning and
the token-update code of server.py:122-145 are unreachable. -/
theorem handlerAuthed_introspection_ok (gid accessToken : String)
    (db : List DemoUser) (introspect : String → Except String TokenInfo)
    (info : TokenInfo) (h : introspect accessToken = .ok info) :
    handlerAuthed gid accessToken db introspect =
      (.resp403 "Token could not be verified: \"too many values to unpack (expected 2)\"", db) := by
  simp only [handlerAuthed, h, Except.bind, TokenInfo.toTuple, unpack2]
  rfl

/-- `splitColonAux` finds no split exactly on colon-free input. -/
theorem splitColonAux_eq_none {cs : List Char} (h : ':' ∉ cs) :
    splitColonAux cs = none := by
  induction cs with
  | nil => rfl
  | cons c cs ih =>
    simp only [List.mem_cons, not_or] at h
    simp only [splitColonAux, if_neg (Ne.symm h.1), ih h.2]
    rfl

/-- `splitColonAux` splits at the first colon: a colon-free chunk `g`
followed by `':'` and an arbitrary tail `t` splits into `(g, t)`. -/
theorem splitColonAux_append {g : List Char} (t : List Char) (h : ':' ∉ g) :
    splitColonAux (g ++ ':' :: t) = some (g, t) := by
  induction g with
  | nil => simp [splitColonAux]
  | cons c cs ih =>
    simp only [List.mem_cons, not_or] at h
    simp only [List.cons_append, splitColonAux, if_neg (Ne.symm h.1),
      List.append_eq, ih h.2]
    rfl

/-- C1: a first authenticated request from an unknown gid is claimed to
persist one UNREGISTERED profile carrying the introspected email. On the
code, a request whose token passes introspection (subject id `"g1"`
matching the header gid, email available) is instead answered HTTP 403
`Token could not be verified: "too many values to unpack (expected 2)"`
- the destructuring of the eight-field `TokenInfo` into
`(token_uid, token_email)` raises `ValueError` - and the datastore stays
empty: no profile entity is ever created (nor would the creation on
server.py:141 store an email). -/
theorem c1_provisioning_never_happens :
    introspectG1 "tok1" =
      .ok { uid := "g1", email := "g1@example.com", expiry := 4070908800,
            email_verified := true, scope := "email profile",
            aud := "webapp-client-id", azp := "webapp-client-id",
            offline := false }
    ∧ graphql_handler (some "g1:tok1") [] introspectG1 =
        (.resp403 "Token could not be verified: \"too many values to unpack (expected 2)\"", []) :=
  ⟨rfl, rfl⟩

/-- C2: a request whose introspected subject id (`"g2"`) differs from the
header gid (`"g1"`) is claimed to be answered HTTP 403 `Token was not
issued for the calling user`. On the code the unpack `ValueError` fires
first, so the response is HTTP 403
`Token could not be verified: "too many values to unpack (expected 2)"`
and the claimed message never occurs. -/
theorem c2_subject_mismatch_unreachable :
    introspectG2 "tok1" =
      .ok { uid := "g2", email := "g2@example.com", expiry := 4070908800,
            email_verified := true, scope := "email profile",
            aud := "webapp-client-id", azp := "webapp-client-id",
            offline := false }
    ∧ ("g2" : String) ≠ "g1"
    ∧ graphql_handler (some "g1:tok1") [] introspectG2 =
        (.resp403 "Token could not be verified: \"too many values to unpack (expected 2)\"", [])
    ∧ (graphql_handler (some "g1:tok1") [] introspectG2).1 ≠
        .resp403 "Token was not issued for the calling user" :=
  ⟨rfl, by decide, rfl, by decide⟩

/-- C3: `get_by_key(k)` is claimed to query exactly the key `k`. The
`filter` wrapper passes `key=None` to the underlying query
(datastore.py:542), so on a datastore holding entities with keys 5 and 7
the call `get_by_key 7` runs an unconstrained kind query and returns the
key-5 entity; the query the spec describes would return the key-7
entity. -/
theorem c3_get_by_key_ignores_key :
    GcdModel.get_by_key "DemoUser" [dsEntity5, dsEntity7] 7 = some dsEntity5
    ∧ dsEntity5.key ≠ 7
    ∧ get_by_key_specified "DemoUser" [dsEntity5, dsEntity7] 7 = some dsEntity7 :=
  ⟨rfl, by decide, rfl⟩

/-- C8: setting a live entity and reading the reference back returns the
same object with no fetch (the read is independent of the datastore
oracle); but a cold read - stored key 7, empty cache, entity present in
the datastore - returns `None` while caching the fetched entity, because
the uncached `fetch()` wrapper (datastore.py:138-140) has no `return`
statement; only the subsequent read returns the entity. -/
theorem c8_entity_reference_cold_read_returns_none :
    EntityValue_set_value [] refEntity7 = (7, [(7, some refEntity7)])
    ∧ EntityValue_get_value [(7, some refEntity7)] 7 getByKey7 =
        (some refEntity7, [(7, some refEntity7)])
    ∧ EntityValue_get_value [(7, some refEntity7)] 7 (fun _ => none) =
        (some refEntity7, [(7, some refEntity7)])
    ∧ EntityValue_get_value [] 7 getByKey7 = (none, [(7, some refEntity7)]) :=
  ⟨rfl, rfl, rfl, rfl⟩

/-- C10: writing a timezone-aware datetime to a timestamp property and
reading it back yields the instant shifted by exactly +7200 seconds
(two hours), never the instant written; absent values pass through
unchanged. -/
theorem c10_timestamp_round_trip_adds_two_hours :
    ∀ v : AwareDt,
      (DatetimeValue_get_value (DatetimeValue_set_value (some v))).map AwareDt.instant
          = some (v.instant + 7200)
      ∧ (DatetimeValue_get_value (DatetimeValue_set_value (some v))).map AwareDt.instant
          ≠ some v.instant
      ∧ DatetimeValue_get_value (DatetimeValue_set_value none) = none := by
  intro v
  refine ⟨rfl, ?_, rfl⟩
  simp [DatetimeValue_get_value, DatetimeValue_set_value, addTwoHours,
    astimezoneFixed]

/-- C9: a present authorization header without a colon is answered HTTP
403 with a message carrying the literal header value, for every
datastore state and introspection behaviour (so before any lookup or
introspection), and the datastore is untouched; a header built as
`gid ++ ":" ++ token` with a colon-free gid splits at the first colon
only - the handler continues exactly as `handlerAuthed gid token`, the
token part keeping any further colons. -/
theorem c9_auth_header_split :
    (∀ (h : String) (db : List DemoUser)
        (introspect : String → Except String TokenInfo),
        ':' ∉ h.data →
        graphql_handler (some h) db introspect =
          (.resp403 ("Malformed auth: " ++ h), db))
    ∧ (∀ (g t : String) (db : List DemoUser)
        (introspect : String → Except String TokenInfo),
        ':' ∉ g.data →
        graphql_handler (some (g ++ ":" ++ t)) db introspect =
          handlerAuthed g t db introspect) := by
  constructor
  · intro h db introspect hc
    have hs : pySplitColon1 h = none := by
      simp [pySplitColon1, splitColonAux_eq_none hc]
    simp [graphql_handler, hs]
  · intro g t db introspect hc
    have hdata : (g ++ ":" ++ t).data = g.data ++ ':' :: t.data := by
      simp [String.data_append]
    have hs : pySplitColon1 (g ++ ":" ++ t) = some (g, t) := by
      simp [pySplitColon1, hdata, splitColonAux_append t.data hc]
    simp [graphql_handler, hs]

/-- Closed instance of the header-parsing theorem at the inputs named by
the spec: header `"abc"` is rejected with the literal value in the
message, and header `"gid1:tok:extra"` splits into gid `"gid1"` and
token `"tok:extra"`. -/
theorem c9_auth_header_split_witness :
    graphql_handler (some "abc") [] introspectFail =
      (.resp403 "Malformed auth: abc", [])
    ∧ graphql_handler (some ("gid1" ++ ":" ++ "tok:extra")) [] introspectFail =
        handlerAuthed "gid1" "tok:extra" [] introspectFail :=
  ⟨c9_auth_header_split.1 "abc" [] introspectFail (by decide),
   c9_auth_header_split.2 "gid1" "tok:extra" [] introspectFail (by decide)⟩

/-- C5: for any required and actual role drawn from the `Roles`
enumeration, the role gate denies with the insufficient-privileges error
naming required and actual exactly when `actual < required`, and runs
the wrapped resolver exactly when `actual ≥ required`. -/
theorem c5_role_gate {α : Type} (required actual : Roles)
    (resolver : GqlCtx → α) (ctx : GqlCtx)
    (h : ctx.caller.entity.role = actual.val) :
    (require_role required resolver ctx =
        .error (.insufficientPrivileges [.i required.val, .i actual.val])
      ↔ actual.val < required.val)
    ∧ (require_role required resolver ctx = .ok (resolver ctx)
      ↔ required.val ≤ actual.val) := by
  unfold require_role
  rw [h]
  by_cases hlt : actual.val < required.val
  · rw [if_pos hlt]
    exact ⟨⟨fun _ => hlt, fun _ => rfl⟩,
      ⟨fun heq => Except.noConfusion heq, fun hle => absurd hle (by omega)⟩⟩
  · rw [if_neg hlt]
    exact ⟨⟨fun heq => Except.noConfusion heq, fun hlt' => absurd hlt' hlt⟩,
      ⟨fun _ => by omega, fun _ => rfl⟩⟩

/-- Closed instance of the role gate theorem: a `REGISTERED` (5) caller
against an `ADMIN` (10) requirement is denied, and would be allowed only
if `10 ≤ 5`. -/
theorem c5_role_gate_witness :
    (require_role Roles.ADMIN (fun _ => (0 : Nat)) ctxReg =
        .error (.insufficientPrivileges [.i Roles.ADMIN.val, .i Roles.REGISTERED.val])
      ↔ Roles.REGISTERED.val < Roles.ADMIN.val)
    ∧ (require_role Roles.ADMIN (fun _ => (0 : Nat)) ctxReg = .ok 0
      ↔ Roles.ADMIN.val ≤ Roles.REGISTERED.val) :=
  c5_role_gate Roles.ADMIN Roles.REGISTERED (fun _ => 0) ctxReg rfl

/-- Behaviour of `run_query` on a script of `NOT_FINISHED` pages closed
by one page that is not `NOT_FINISHED`: every page's results are yielded
in order, each follow-up request carries the previous page's
`endCursor`, and the outcome is decided by the final page's
`moreResults` marker. -/
theorem run_query_chain (last : QPage) (hl : last.status = 200)
    (hnf : last.moreResults ≠ "NOT_FINISHED") :
    ∀ (pages : List QPage) (sc : Option String),
      (∀ p ∈ pages, p.status = 200 ∧ p.moreResults = "NOT_FINISHED") →
      run_query (pages ++ [last]) sc =
        { requests := sc :: pages.map (fun p => some p.endCursor),
          yielded := (pages.map QPage.entityResults).flatten ++ last.entityResults,
          outcome :=
            if last.moreResults = "NO_MORE_RESULTS"
                ∨ last.moreResults = "MORE_RESULTS_AFTER_LIMIT"
                ∨ last.moreResults = "MORE_RESULTS_AFTER_CURSOR" then .done
            else .error ("Unexpected value for \"moreResults\": " ++ last.moreResults) } := by
  intro pages
  induction pages with
  | nil =>
    intro sc _
    by_cases hterm : last.moreResults = "NO_MORE_RESULTS"
        ∨ last.moreResults = "MORE_RESULTS_AFTER_LIMIT"
        ∨ last.moreResults = "MORE_RESULTS_AFTER_CURSOR"
    · simp [run_query, hl, hterm]
    · simp [run_query, hl, hterm, hnf]
  | cons p rest ih =>
    intro sc hp
    have h200 : p.status = 200 := (hp p (List.mem_cons_self _ _)).1
    have hNF : p.moreResults = "NOT_FINISHED" := (hp p (List.mem_cons_self _ _)).2
    have hrec := ih (some p.endCursor) (fun q hq => hp q (List.mem_cons_of_mem _ hq))
    simp [run_query, h200, hNF, hrec]

/-- C6: on a scripted response sequence of 200-status `NOT_FINISHED`
pages closed by a 200-status final page, `run_query` yields the
concatenation of all pages' entity results in order and issues one
request per page, the first without a cursor and each follow-up carrying
the previous page's `endCursor` as `startCursor`; a final page whose
`moreResults` is one of `NO_MORE_RESULTS`, `MORE_RESULTS_AFTER_LIMIT`,
`MORE_RESULTS_AFTER_CURSOR` terminates the stream normally, while a
final page with any other marker makes the stream fail with the
explicit unexpected-moreResults error. -/
theorem c6_pagination (pages : List QPage) (last : QPage)
    (hp : ∀ p ∈ pages, p.status = 200 ∧ p.moreResults = "NOT_FINISHED")
    (hl : last.status = 200) :
    (last.moreResults = "NO_MORE_RESULTS"
        ∨ last.moreResults = "MORE_RESULTS_AFTER_LIMIT"
        ∨ last.moreResults = "MORE_RESULTS_AFTER_CURSOR" →
      run_query (pages ++ [last]) none =
        { requests := none :: pages.map (fun p => some p.endCursor),
          yielded := (pages.map QPage.entityResults).flatten ++ last.entityResults,
          outcome := .done })
    ∧ (¬(last.moreResults = "NO_MORE_RESULTS"
          ∨ last.moreResults = "MORE_RESULTS_AFTER_LIMIT"
          ∨ last.moreResults = "MORE_RESULTS_AFTER_CURSOR") →
        last.moreResults ≠ "NOT_FINISHED" →
      run_query (pages ++ [last]) none =
        { requests := none :: pages.map (fun p => some p.endCursor),
          yielded := (pages.map QPage.entityResults).flatten ++ last.entityResults,
          outcome := .error ("Unexpected value for \"moreResults\": " ++ last.moreResults) }) := by
  constructor
  · intro hterm
    have hnf : last.moreResults ≠ "NOT_FINISHED" := by
      rcases hterm with h | h | h <;> simp [h]
    rw [run_query_chain last hl hnf pages none hp, if_pos hterm]
  · intro hne hnf
    rw [run_query_chain last hl hnf pages none hp, if_neg hne]

/-- Closed instance of the pagination theorem at the spec's scripted
sequence `NOT_FINISHED → NOT_FINISHED → NO_MORE_RESULTS` (three
requests, cursors chained, all five results yielded) and at a
single-page script with an out-of-protocol marker. -/
theorem c6_pagination_witness :
    run_query [qPage1, qPage2, qPage3] none =
      { requests := [none, some "cur1", some "cur2"],
        yielded := [1, 2, 3, 4, 5],
        outcome := .done }
    ∧ run_query [qPageBad] none =
      { requests := [none],
        yielded := [9],
        outcome := .error ("Unexpected value for \"moreResults\": " ++ "BOGUS_MARKER") } :=
  ⟨(c6_pagination [qPage1, qPage2] qPage3 (by decide) rfl).1 (by decide),
   (c6_pagination [] qPageBad (by decide) rfl).2 (by decide) (by decide)⟩

/-- Storing a cache entry makes it the one found for its url. -/
theorem cacheLookup_cacheStore_self (cache : CertsCache) (url : String)
    (v : Certs × Int) : cacheLookup (cacheStore cache url v) url = some v := by
  induction cache with
  | nil => simp [cacheStore, cacheLookup]
  | cons h rest ih =>
    obtain ⟨u, c, e⟩ := h
    by_cases hu : u = url
    · simp [cacheStore, cacheLookup, hu]
    · simp [cacheStore, cacheLookup, hu, ih]

/-- C7: starting from a cache with no entry for `url`, a fetch at `t0`
performs one HTTP GET and stores the certificates with expiry
`t0 + 300`; a fetch answered with a non-200 status raises the transport
error instead; a second fetch at `t1` with `t1 - t0 ≤ 300` returns the
cached mapping with no HTTP call and an unchanged cache; a second fetch
with `t1 - t0 > 300` performs an HTTP call again, on 200 returning and
storing the new certificates with expiry `t1 + 300`, and on a non-200
status raising the transport error. -/
theorem c7_certs_cache_ttl (cache : CertsCache) (url : String)
    (t0 t1 : Int) (body body2 : Certs)
    (hmiss : cacheLookup cache url = none) :
    fetch_certs cache t0 url 200 body =
      { result := .ok body, cache := cacheStore cache url (body, t0 + 300),
        httpCalled := true }
    ∧ (∀ (s : Nat) (b : Certs), s ≠ 200 →
        fetch_certs cache t0 url s b =
          { result := .error ("Could not fetch certificates at " ++ url),
            cache := cache, httpCalled := true })
    ∧ (t1 - t0 ≤ 300 → ∀ (s : Nat) (b : Certs),
        fetch_certs (cacheStore cache url (body, t0 + 300)) t1 url s b =
          { result := .ok body, cache := cacheStore cache url (body, t0 + 300),
            httpCalled := false })
    ∧ (300 < t1 - t0 →
        (fetch_certs (cacheStore cache url (body, t0 + 300)) t1 url 200 body2).httpCalled = true
        ∧ (fetch_certs (cacheStore cache url (body, t0 + 300)) t1 url 200 body2).result = .ok body2
        ∧ cacheLookup
            (fetch_certs (cacheStore cache url (body, t0 + 300)) t1 url 200 body2).cache url
            = some (body2, t1 + 300)
        ∧ ∀ (s : Nat) (b : Certs), s ≠ 200 →
            (fetch_certs (cacheStore cache url (body, t0 + 300)) t1 url s b).result
              = .error ("Could not fetch certificates at " ++ url)) := by
  have hlk := cacheLookup_cacheStore_self cache url (body, t0 + 300)
  refine ⟨?_, ?_, ?_, ?_⟩
  · simp [fetch_certs, hmiss, certsHttpGet]
  · intro s b hs
    simp [fetch_certs, hmiss, certsHttpGet, hs]
  · intro hle s b
    have hnot : ¬ t1 > t0 + 300 := by omega
    simp [fetch_certs, hlk, hnot]
  · intro hgt
    have hyes : t1 > t0 + 300 := by omega
    refine ⟨?_, ?_, ?_, ?_⟩
    · simp [fetch_certs, hlk, hyes, certsHttpGet]
    · simp [fetch_certs, hlk, hyes, certsHttpGet]
    · simp [fetch_certs, hlk, hyes, certsHttpGet, cacheLookup_cacheStore_self]
    · intro s b hs
      simp [fetch_certs, hlk, hyes, certsHttpGet, hs]

/-- Closed instance of the certificate cache theorem at the spec's
scenario: a fetch at `t = 0`, a second fetch 10 seconds later served
from cache with no HTTP call, and a fetch 301 seconds later performing
an upstream call again. -/
theorem c7_certs_cache_ttl_witness :
    fetch_certs [] 0 "certsUrl" 200 "certsA" =
      { result := .ok "certsA",
        cache := cacheStore [] "certsUrl" ("certsA", 0 + 300),
        httpCalled := true }
    ∧ fetch_certs (cacheStore [] "certsUrl" ("certsA", 0 + 300)) 10 "certsUrl" 200 "certsB" =
      { result := .ok "certsA",
        cache := cacheStore [] "certsUrl" ("certsA", 0 + 300),
        httpCalled := false }
    ∧ (fetch_certs (cacheStore [] "certsUrl" ("certsA", 0 + 300)) 301 "certsUrl" 200 "certsB").httpCalled
        = true :=
  ⟨(c7_certs_cache_ttl [] "certsUrl" 0 10 "certsA" "certsB" rfl).1,
   (c7_certs_cache_ttl [] "certsUrl" 0 10 "certsA" "certsB" rfl).2.2.1 (by decide) 200 "certsB",
   ((c7_certs_cache_ttl [] "certsUrl" 0 301 "certsA" "certsB" rfl).2.2.2 (by decide)).1⟩

/-- Setting any field other than `gid` leaves the stored gid unchanged. -/
theorem pySetattr_gid_of_ne (u : DemoUser) (field : String) (v : PyVal)
    (hf : field ≠ "gid") : (pySetattr u field v).gid = u.gid := by
  unfold pySetattr
  rw [if_neg hf]
  split_ifs <;> (cases v <;> rfl)

/-- Through the field loop, if every supplied `gid` value equals the
user's stored gid, a successful run leaves the gid unchanged. -/
theorem applyFields_ok_gid (hasEmail : DemoUser → PyVal → Bool) (cr : Int) :
    ∀ (fields : List (String × PyVal)) (user : DemoUser) (changes : Bool),
      (∀ v, ("gid", v) ∈ fields → v = .s user.gid) →
      ∀ (u' : DemoUser) (c' : Bool),
        applyFields hasEmail cr user changes fields = .ok (u', c') →
        u'.gid = user.gid := by
  intro fields
  induction fields with
  | nil =>
    intro user changes _ u' c' h
    simp only [applyFields, Except.ok.injEq, Prod.mk.injEq] at h
    rw [← h.1]
  | cons fv rest ih =>
    obtain ⟨f, v⟩ := fv
    intro user changes hg u' c' h
    simp only [applyFields] at h
    by_cases heq : pyGetattr user f = some v
    · rw [if_pos heq] at h
      exact ih user changes (fun v' hv' => hg v' (List.mem_cons_of_mem _ hv')) u' c' h
    · rw [if_neg heq] at h
      cases hfc : fieldCheck hasEmail cr user f v with
      | error e =>
        rw [hfc] at h
        exact absurd h (by simp)
      | ok _ =>
        rw [hfc] at h
        by_cases hf : f = "gid"
        · subst hf
          have hv : v = .s user.gid := hg v (List.mem_cons_self _ _)
          refine absurd ?_ heq
          rw [hv]
          simp [pyGetattr]
        · have hsg := pySetattr_gid_of_ne user f v hf
          have hdone := ih (pySetattr user f v) true
            (fun v' hv' => by rw [hsg]; exact hg v' (List.mem_cons_of_mem _ hv'))
            u' c' h
          rw [hdone, hsg]

/-- Through the field loop, when no supplied field is named `id`, every
raised `InvalidMutationValue` is the email-ownership error. -/
theorem applyFields_imv_email (hasEmail : DemoUser → PyVal → Bool) (cr : Int) :
    ∀ (fields : List (String × PyVal)) (user : DemoUser) (changes : Bool) (m : String),
      (∀ fv ∈ fields, fv.1 ≠ "id") →
      applyFields hasEmail cr user changes fields = .error (.invalidMutationValue m) →
      ∃ v, m = emailErrorMsg v := by
  intro fields
  induction fields with
  | nil =>
    intro user changes m _ h
    exact absurd h (by simp [applyFields])
  | cons fv rest ih =>
    obtain ⟨f, v⟩ := fv
    intro user changes m hid h
    simp only [applyFields] at h
    by_cases heq : pyGetattr user f = some v
    · rw [if_pos heq] at h
      exact ih user changes m (fun fv' hfv' => hid fv' (List.mem_cons_of_mem _ hfv')) h
    · rw [if_neg heq] at h
      cases hfc : fieldCheck hasEmail cr user f v with
      | ok _ =>
        rw [hfc] at h
        exact ih (pySetattr user f v) true m
          (fun fv' hfv' => hid fv' (List.mem_cons_of_mem _ hfv')) h
      | error e =>
        rw [hfc] at h
        have he : e = .invalidMutationValue m := by
          injection h with h'
        subst he
        unfold fieldCheck at hfc
        by_cases h1 : f = "email"
        · rw [if_pos h1] at hfc
          by_cases h2 : hasEmail user v
          · rw [if_pos h2] at hfc
            exact absurd hfc (by simp)
          · rw [if_neg h2] at hfc
            injection hfc with h3
            injection h3 with h4
            exact ⟨v, h4.symm⟩
        · rw [if_neg h1] at hfc
          have h5 : f ≠ "id" := hid (f, v) (List.mem_cons_self _ _)
          rw [if_neg h5] at hfc
          by_cases h6 : f = "role"
          · rw [if_pos h6] at hfc
            by_cases h7 : cr < Roles.ADMIN.val
            · rw [if_pos h7] at hfc
              injection hfc with h8
              exact absurd h8 (by simp)
            · rw [if_neg h7] at hfc
              exact absurd hfc (by simp)
          · rw [if_neg h6] at hfc
            exact absurd hfc (by simp)

/-- A profile entity found by a gid equality query carries that gid. -/
theorem dbFind_gid (db : List DemoUser) (gid : String) (u : DemoUser)
    (h : dbFind db gid = some u) : u.gid = gid := by
  have := List.find?_some h
  exact eq_of_beq this

/-- With unique argument keys, every `gid` entry of the argument list is
the one `args['gid']` denotes. -/
theorem argsGid_unique (args : List (String × PyVal)) (g : String)
    (hgid : argsGid args = some g) (hnodup : (args.map Prod.fst).Nodup) :
    ∀ v, ("gid", v) ∈ args → v = .s g := by
  induction args with
  | nil => intro v hv; exact absurd hv (by simp)
  | cons fv rest ih =>
    obtain ⟨f, w⟩ := fv
    intro v hv
    by_cases hf : f = "gid"
    · have hfind : ((f, w) :: rest).find? (fun p => p.1 == "gid") = some (f, w) := by
        apply List.find?_cons_of_pos
        simp [hf]
      rw [argsGid, hfind] at hgid
      have hw : w = .s g := by
        cases w with
        | s x =>
          simp only [Option.some.injEq] at hgid
          rw [hgid]
        | i x => exact absurd hgid (by simp)
        | b x => exact absurd hgid (by simp)
      rcases List.mem_cons.mp hv with hhead | htail
      · have : v = w := by
          have := congrArg Prod.snd hhead
          simpa using this
        rw [this, hw]
      · exfalso
        have hmem : "gid" ∈ rest.map Prod.fst :=
          List.mem_map.mpr ⟨("gid", v), htail, rfl⟩
        rw [List.map_cons] at hnodup
        have hnotin := (List.nodup_cons.mp hnodup).1
        rw [hf] at hnotin
        exact hnotin hmem
    · have hfind : ((f, w) :: rest).find? (fun p => p.1 == "gid") = rest.find? (fun p => p.1 == "gid") := by
        apply List.find?_cons_of_neg
        simp [hf]
      rw [argsGid, hfind] at hgid
      rcases List.mem_cons.mp hv with hhead | htail
      · exact absurd (congrArg Prod.fst hhead).symm (by simpa using hf)
      · rw [List.map_cons] at hnodup
        exact ih hgid (List.nodup_cons.mp hnodup).2 v htail

/-- Replacing the entity stored under `gid` by one carrying the same gid
preserves the list of stored gids. -/
theorem dbReplace_map_gid (db : List DemoUser) (gid : String) (u' : DemoUser)
    (hg : u'.gid = gid) :
    (dbReplace db gid u').map DemoUser.gid = db.map DemoUser.gid := by
  induction db with
  | nil => rfl
  | cons x rest ih =>
    simp only [dbReplace, List.map_cons] at ih ⊢
    rw [ih]
    by_cases hx : x.gid == gid
    · rw [if_pos hx, hg, eq_of_beq hx]
    · rw [if_neg hx]

/-- C4 (amended): the supplied `gid` selects the mutation's target, so
no `profileUpdate` call changes any stored gid - a successful call
leaves the list of stored gids unchanged - and the only
invalid-mutation-value error the mutation can raise is the
email-ownership error: no gid/id change rejection exists (the
id-immutability guard tests input field `id`, which is not among the
mutation's input fields). -/
theorem c4_profile_update_amended (db : List DemoUser) (caller : Caller)
    (args : List (String × PyVal)) (hasEmail : DemoUser → PyVal → Bool)
    (hkeys : ∀ fv ∈ args, fv.1 = "gid" ∨ fv.1 = "email" ∨ fv.1 = "name" ∨ fv.1 = "role")
    (hnodup : (args.map Prod.fst).Nodup) :
    (∀ db' u ok, ProfileUpdate_mutate db caller args hasEmail = .ok (db', u, ok) →
        db'.map DemoUser.gid = db.map DemoUser.gid)
    ∧ (∀ m, ProfileUpdate_mutate db caller args hasEmail = .error (.invalidMutationValue m) →
        ∃ v, m = emailErrorMsg v) := by
  have hid : ∀ fv ∈ args, fv.1 ≠ "id" := by
    intro fv hfv
    rcases hkeys fv hfv with h | h | h | h <;> simp [h]
  constructor
  · intro db' u ok h
    unfold ProfileUpdate_mutate at h
    by_cases hrole : caller.entity.role < Roles.UNREGISTERED.val
    · rw [if_pos hrole] at h
      exact absurd h (by simp)
    · rw [if_neg hrole] at h
      cases hgid : argsGid args with
      | none => simp [hgid] at h
      | some gid =>
        simp only [hgid] at h
        cases hfind : dbFind db gid with
        | none => simp [hfind] at h
        | some user =>
          simp only [hfind] at h
          by_cases hpriv : caller.gid ≠ user.gid ∧ caller.entity.role < Roles.ADMIN.val
          · rw [if_pos hpriv] at h
            exact absurd h (by simp)
          · rw [if_neg hpriv] at h
            have huser : user.gid = gid := dbFind_gid db gid user hfind
            have hgv : ∀ v, ("gid", v) ∈ args → v = .s user.gid := by
              intro v hv
              rw [huser]
              exact argsGid_unique args gid hgid hnodup v hv
            cases happ : applyFields hasEmail caller.entity.role user false args with
            | error e => simp [happ] at h
            | ok p =>
              obtain ⟨user', changes⟩ := p
              simp only [happ] at h
              have hu'g : user'.gid = user.gid :=
                applyFields_ok_gid hasEmail caller.entity.role args user false hgv
                  user' changes happ
              have hdb : (if changes = true then dbReplace db gid user' else db) = db' := by
                injection h with h'
                exact congrArg (fun q => q.1) h'
              rw [← hdb]
              cases changes with
              | true =>
                simpa using dbReplace_map_gid db gid user' (hu'g.trans huser)
              | false => simp
  · intro m h
    unfold ProfileUpdate_mutate at h
    by_cases hrole : caller.entity.role < Roles.UNREGISTERED.val
    · rw [if_pos hrole] at h
      exact absurd h (by simp)
    · rw [if_neg hrole] at h
      cases hgid : argsGid args with
      | none => simp [hgid] at h
      | some gid =>
        simp only [hgid] at h
        cases hfind : dbFind db gid with
        | none => simp [hfind] at h
        | some user =>
          simp only [hfind] at h
          by_cases hpriv : caller.gid ≠ user.gid ∧ caller.entity.role < Roles.ADMIN.val
          · rw [if_pos hpriv] at h
            exact absurd h (by simp)
          · rw [if_neg hpriv] at h
            cases happ : applyFields hasEmail caller.entity.role user false args with
            | ok p =>
              obtain ⟨user', changes⟩ := p
              simp [happ] at h
            | error e =>
              simp only [happ] at h
              have he : e = .invalidMutationValue m := by
                injection h with h'
              subst he
              exact applyFields_imv_email hasEmail caller.entity.role args user false m hid happ

/-- C4 counterexample: an admin whose stored gid is `"a"` calls
`profileUpdate` supplying gid `"b"` - a gid different from the stored
one - together with a name change; the call does not fail with an
invalid-mutation-value error, it succeeds, updating the `"b"` user's
name and leaving every stored gid unchanged. -/
theorem c4_counterexample :
    ("b" : String) ≠ callerA.entity.gid
    ∧ ProfileUpdate_mutate [adminA, userB] callerA c4Args alwaysHasEmail =
        .ok ([adminA, { userB with name := some "robert" }],
             { userB with name := some "robert" }, true) :=
  ⟨by decide, by decide⟩

/-- Closed instance of the amended C4 theorem at the counterexample's
input. -/
theorem c4_profile_update_amended_witness :
    (∀ db' u ok,
        ProfileUpdate_mutate [adminA, userB] callerA c4Args alwaysHasEmail = .ok (db', u, ok) →
        db'.map DemoUser.gid = [adminA, userB].map DemoUser.gid)
    ∧ (∀ m,
        ProfileUpdate_mutate [adminA, userB] callerA c4Args alwaysHasEmail =
          .error (.invalidMutationValue m) →
        ∃ v, m = emailErrorMsg v) :=
  c4_profile_update_amended [adminA, userB] callerA c4Args alwaysHasEmail
    (by decide) (by decide)

end PyAngular
